/-
Verification development for the Scribe jQuery Numeric plugin
(src/jquery-constraint-numeric.js).

The plugin is shallowly embedded: JavaScript primitive values are the
inductive JSValue (numbers are rationals plus NaN, which suffices for every
value the plugin manipulates), configuration objects are finite partial maps
over the seven configuration fields, and the stateful prototype methods are
explicit state-passing functions returning Except so that thrown TypeError
and ReferenceError exceptions are visible in the model.
-/
import Mathlib

namespace NumericPlugin

/-! ## JavaScript value model -/

/-- A JavaScript number: either NaN or a rational. The plugin never produces
infinities, and every finite number it manipulates is rational. -/
inductive JNum where
  | nan : JNum
  | rat : ℚ → JNum
deriving DecidableEq

/-- A JavaScript primitive value as used by the plugin configuration and
dispatch code. Function objects are represented by an identifying tag; two
function values are identical (in the sense of strict equality) exactly when
their tags coincide. -/
inductive JSValue where
  | undef : JSValue
  | bool  : Bool → JSValue
  | num   : JNum → JSValue
  | str   : String → JSValue
  | func  : String → JSValue
deriving DecidableEq

/-- Strict equality on JavaScript numbers: NaN is not strictly equal to
anything, including itself. -/
def jnumStrictEq : JNum → JNum → Bool
  | JNum.rat a, JNum.rat b => a == b
  | _, _ => false

/-- JavaScript strict equality (===) on the modelled values: values of
different types are never equal, NaN is never equal to anything. -/
def strictEq : JSValue → JSValue → Bool
  | JSValue.undef,  JSValue.undef  => true
  | JSValue.bool a, JSValue.bool b => a == b
  | JSValue.num a,  JSValue.num b  => jnumStrictEq a b
  | JSValue.str a,  JSValue.str b  => a == b
  | JSValue.func a, JSValue.func b => a == b
  | _, _ => false

/-- JavaScript truthiness: undefined, false, NaN, 0 and "" are falsy. -/
def truthy : JSValue → Bool
  | JSValue.undef => false
  | JSValue.bool b => b
  | JSValue.num JNum.nan => false
  | JSValue.num (JNum.rat q) => q != 0
  | JSValue.str s => s != ""
  | JSValue.func _ => true

/-- Rendering of a JavaScript number as a string. Only the NaN case is ever
reached by the modelled code paths; finite rationals are rendered through
the library rational printer as a placeholder. -/
def jnumToString : JNum → String
  | JNum.nan => "NaN"
  | JNum.rat q => toString q

/-- The JavaScript ToString coercion on the modelled values, used for the
string concatenation that assembles the event type name. -/
def jsToString : JSValue → String
  | JSValue.undef => "undefined"
  | JSValue.bool true => "true"
  | JSValue.bool false => "false"
  | JSValue.num n => jnumToString n
  | JSValue.str s => s
  | JSValue.func _ => "function"

/-- Value of a list of decimal digit characters. -/
def digitsVal (cs : List Char) : ℕ :=
  cs.foldl (fun a c => a * 10 + (c.toNat - 48)) 0

/-- Parse an unsigned decimal literal (digits, optionally with a fractional
part) that must span the whole character list; anything else is rejected.
This models the number grammar accepted by the ToNumber coercion on the
string bodies the plugin encounters (exponent, hexadecimal and Infinity
forms are not modelled; each of those fails the integer round-trip test in
the code just as a rejected string does). -/
def parseUnsigned (cs : List Char) : Option ℚ :=
  let ip := cs.takeWhile Char.isDigit
  let rest := cs.dropWhile Char.isDigit
  match rest with
  | [] => if ip.isEmpty then none else some (digitsVal ip : ℚ)
  | '.' :: rest2 =>
    let fp := rest2.takeWhile Char.isDigit
    let rest3 := rest2.dropWhile Char.isDigit
    if rest3.isEmpty && (!ip.isEmpty || !fp.isEmpty) then
      some ((digitsVal ip : ℚ) + (digitsVal fp : ℚ) / (10 ^ fp.length : ℚ))
    else none
  | _ => none

/-- Strip leading whitespace from a character list. -/
def trimLeftChars (cs : List Char) : List Char := cs.dropWhile Char.isWhitespace

/-- Strip surrounding whitespace from a character list. -/
def trimChars (cs : List Char) : List Char :=
  ((cs.dropWhile Char.isWhitespace).reverse.dropWhile Char.isWhitespace).reverse

/-- ToNumber on a string: surrounding whitespace is trimmed, the empty
string is 0, an optional sign precedes the digits, and any other content
yields NaN. -/
def strToNumber (s : String) : JNum :=
  match trimChars s.data with
  | [] => JNum.rat 0
  | '+' :: rest => (parseUnsigned rest).elim JNum.nan (fun q => JNum.rat q)
  | '-' :: rest => (parseUnsigned rest).elim JNum.nan (fun q => JNum.rat (-q))
  | cs => (parseUnsigned cs).elim JNum.nan JNum.rat

/-- The JavaScript ToNumber coercion (the unary plus the plugin applies to
configuration values). -/
def toNumber : JSValue → JNum
  | JSValue.undef => JNum.nan
  | JSValue.bool true => JNum.rat 1
  | JSValue.bool false => JNum.rat 0
  | JSValue.num n => n
  | JSValue.str s => strToNumber s
  | JSValue.func _ => JNum.nan

/-- Truncation of a rational toward zero, as parseInt performs on the
decimal rendering of a finite number. -/
def jsTrunc (q : ℚ) : ℤ := q.num / (q.den : ℤ)

/-- Parse the leading digit run of a character list as an integer with the
given sign; no leading digit yields NaN. -/
def parseIntFrom (cs : List Char) (sign : ℤ) : JNum :=
  let ds := cs.takeWhile Char.isDigit
  if ds.isEmpty then JNum.nan else JNum.rat ((sign * (digitsVal ds : ℤ) : ℤ) : ℚ)

/-- parseInt(s, 10) on a string: skip leading whitespace, read an optional
sign and then the longest leading digit run, ignoring the remainder. -/
def parseIntStr (s : String) : JNum :=
  if (trimLeftChars s.data).head? = some '+' then parseIntFrom (trimLeftChars s.data).tail 1
  else if (trimLeftChars s.data).head? = some '-' then parseIntFrom (trimLeftChars s.data).tail (-1)
  else parseIntFrom (trimLeftChars s.data) 1

/-- parseInt(v, 10) on an arbitrary value: the argument is first converted
to a string. The rendering of undefined, booleans and functions has no
leading digits, so those give NaN; a finite number renders in positional
notation and its leading digits parse back to its truncation toward zero. -/
def parseIntJS : JSValue → JNum
  | JSValue.str s => parseIntStr s
  | JSValue.num JNum.nan => JNum.nan
  | JSValue.num (JNum.rat q) => JNum.rat ((jsTrunc q : ℤ) : ℚ)
  | _ => JNum.nan

/-! ## Configuration objects -/

/-- The seven configuration fields of the plugin. -/
inductive CfgField where
  | negative | decimal | decimalPlaces | delegateRemoval | delegateRealtime
  | callbackInvalidEntry | callbackValidEntry
deriving DecidableEq

/-- A configuration object: a partial assignment of values to the plugin
configuration fields (none models a property that is absent from the
object). -/
def Obj : Type := CfgField → Option JSValue

/-- The empty object literal. -/
def emptyObj : Obj := fun _ => none

/-- Reading a property in JavaScript: an absent property reads as
undefined. -/
def readProp (o : Obj) (f : CfgField) : JSValue := (o f).getD JSValue.undef

/-- Writing a property. -/
def setProp (o : Obj) (f : CfgField) (v : JSValue) : Obj :=
  fun g => if g = f then some v else o g

/-- One source step of jQuery extend: every own property of the source whose
value is not undefined overwrites the target (jQuery skips properties whose
copied value is undefined). -/
def extendObj (target source : Obj) : Obj := fun f =>
  match source f with
  | some v => if v = JSValue.undef then target f else some v
  | none => target f

/-- jQuery extend over a list of sources, applied left to right into an
initially empty target, as in extend({}, defaults, options, metadata). -/
def extendMany (sources : List Obj) : Obj := sources.foldl extendObj emptyObj

/-- The prototype defaults object (lines 58 to 66 of the source). -/
def defaultsObj : Obj := fun f =>
  match f with
  | CfgField.negative => some (JSValue.bool true)
  | CfgField.decimal => some (JSValue.bool true)
  | CfgField.decimalPlaces => some JSValue.undef
  | CfgField.delegateRemoval => some (JSValue.bool true)
  | CfgField.delegateRealtime => some (JSValue.bool true)
  | CfgField.callbackInvalidEntry => some JSValue.undef
  | CfgField.callbackValidEntry => some JSValue.undef

/-- The raw merge this.config = extend({}, dflt, options, metadata). -/
def mergeRawWith (dflt options metadata : Obj) : Obj :=
  extendMany [dflt, options, metadata]

/-- Raw merge against the prototype defaults. -/
def mergeRaw (options metadata : Obj) : Obj := mergeRawWith defaultsObj options metadata

/-- typeof v === "boolean". -/
def isBoolVal : JSValue → Bool
  | JSValue.bool _ => true
  | _ => false

/-- typeof v === "string". -/
def isStrVal : JSValue → Bool
  | JSValue.str _ => true
  | _ => false

/-- typeof v === "function". -/
def isFunVal : JSValue → Bool
  | JSValue.func _ => true
  | _ => false

/-- typeof v === "string" and v.length !== 1, the second disjunct of the
reset condition on the decimal option (line 113). -/
def isStringOfLengthNe1 : JSValue → Bool
  | JSValue.str s => s.length != 1
  | _ => false

/-- Normalization of the negative option (lines 106 to 108): a non-boolean
value is reset to the default. -/
def resolveNegative (dflt : Obj) (v : JSValue) : JSValue :=
  if isBoolVal v then v else readProp dflt CfgField.negative

/-- Normalization of the decimal option (lines 113 to 120): false, and any
string whose length is not 1, reset to the default; afterwards any
non-string (the boolean true in particular) becomes the period. -/
def resolveDecimal (dflt : Obj) (v : JSValue) : JSValue :=
  let v1 := if strictEq v (JSValue.bool false) || isStringOfLengthNe1 v then
    readProp dflt CfgField.decimal else v
  if !isStrVal v1 then JSValue.str "." else v1

/-- Normalization of the decimalPlaces option (lines 125 to 127): the value
is kept, coerced by unary plus, when it equals the default or survives the
integer round-trip +v === parseInt(v, 10); otherwise it is reset to the
default. -/
def resolveDecimalPlaces (dflt : Obj) (v : JSValue) : JSValue :=
  if (!strictEq v (readProp dflt CfgField.decimalPlaces))
      && (!jnumStrictEq (toNumber v) (parseIntJS v)) then
    readProp dflt CfgField.decimalPlaces
  else JSValue.num (toNumber v)

/-- Normalization of a delegate flag (lines 130 to 137): a non-boolean value
is reset to the supplied default field. -/
def resolveDelegate (dflt : Obj) (f : CfgField) (v : JSValue) : JSValue :=
  if isBoolVal v then v else readProp dflt f

/-- Normalization of a callback (lines 140 to 147): a non-function value is
replaced by undefined. -/
def resolveCallback (v : JSValue) : JSValue :=
  if isFunVal v then v else JSValue.undef

/-- mergeConfiguration (lines 100 to 149) against an explicit defaults
object: raw three-way merge followed by per-field normalization. Each
normalization block in the source reads and writes a single field of
this.config (plus the corresponding field of this.defaults), so the
resolved object is assembled field by field. -/
def mergeConfigurationWith (dflt options metadata : Obj) : Obj :=
  let raw := mergeRawWith dflt options metadata
  fun f => some (match f with
    | CfgField.negative => resolveNegative dflt (readProp raw CfgField.negative)
    | CfgField.decimal => resolveDecimal dflt (readProp raw CfgField.decimal)
    | CfgField.decimalPlaces =>
        resolveDecimalPlaces dflt (readProp raw CfgField.decimalPlaces)
    | CfgField.delegateRemoval =>
        resolveDelegate dflt CfgField.delegateRemoval (readProp raw CfgField.delegateRemoval)
    | CfgField.delegateRealtime =>
        resolveDelegate dflt CfgField.delegateRealtime (readProp raw CfgField.delegateRealtime)
    | CfgField.callbackInvalidEntry =>
        resolveCallback (readProp raw CfgField.callbackInvalidEntry)
    | CfgField.callbackValidEntry =>
        resolveCallback (readProp raw CfgField.callbackValidEntry))

/-- mergeConfiguration against the prototype defaults as shipped. -/
def mergeConfiguration (options metadata : Obj) : Obj :=
  mergeConfigurationWith defaultsObj options metadata

/-- The configuration-relevant state of a bound instance: its (possibly
user-replaced) defaults object and its resolved config object. -/
structure InstCfgState where
  defaults : Obj
  config : Obj

/-- Running this.mergeConfiguration() on an instance: the raw merge targets
a fresh empty object literal and every normalization write lands in
this.config, so the defaults object of the instance is passed through
untouched. -/
def runMergeConfiguration (st : InstCfgState) (options metadata : Obj) : InstCfgState :=
  { defaults := st.defaults
    config := mergeConfigurationWith st.defaults options metadata }

/-! ## Validation dispatcher -/

/-- Exceptions the modelled code can throw. -/
inductive JSErr where
  | typeError : String → JSErr
  | refError : String → JSErr
deriving DecidableEq

/-- The event object built by buildEventObject (lines 394 to 408). The
caller and DOM references of the info record are omitted: no modelled code
reads them. -/
structure JSEventObj where
  typeName : String
  code : JNum
  message : JSValue
  typeBase : JSValue
  typeCtx : JSValue
  elementValue : Option String

/-- A bound plugin instance. element is none when the instance was never
attached to a DOM element (this.element === undefined); domValue is the
current value of the attached text input (what this.$element.val() reads);
triggered logs the custom events dispatched through this.$element.trigger. -/
structure Inst where
  element : Option Unit
  domValue : String
  elementLastValue : Option String
  config : Obj
  triggered : List JSEventObj

/-- The member names defined on the Numeric prototype (lines 39 to 414). -/
def protoMethods : List String :=
  ["defaults", "eventLookupTable", "init", "mergeConfiguration", "bindEventReceivers",
   "hasElementValueChanged", "validate", "validateLive", "validateLazy",
   "validationResult", "buildEventObject"]

/-- The function-valued members of the prototype. -/
def protoFunctionMembers : List String :=
  ["init", "mergeConfiguration", "bindEventReceivers", "hasElementValueChanged",
   "validate", "validateLive", "validateLazy", "validationResult", "buildEventObject"]

/-- Reading a member of a bound instance by name, for the member reads the
dispatcher performs: a prototype method reads as a function value tagged
with its own name, and a name defined neither on the instance nor on the
prototype reads as undefined. (The two object-valued prototype members,
defaults and eventLookupTable, are never reached through the names the
dispatcher code actually reads, so they need no representation here.) -/
def protoPropRead (name : String) : JSValue :=
  if protoFunctionMembers.contains name then JSValue.func name else JSValue.undef

/-- Reading a property of a primitive or function value: a property read on
undefined throws a TypeError; on the other modelled values (none of which
carries such a property) it yields undefined. -/
def propOf (v : JSValue) (name : String) : Except JSErr JSValue :=
  match v with
  | JSValue.undef => Except.error (JSErr.typeError ("cannot read " ++ name ++ " of undefined"))
  | _ => Except.ok JSValue.undef

/-- Indexing with a number: on the modelled primitive values this yields
undefined. (The two bracket indexings in buildEventObject sit behind member
reads on undefined and are never reached.) -/
def indexJS (v : JSValue) (i : JNum) : JSValue := JSValue.undef

/-- The JavaScript logical-or of two effectful operands: the left operand is
evaluated and kept when truthy, otherwise the right operand is evaluated. -/
def jsOr (a b : Except JSErr JSValue) : Except JSErr JSValue := do
  let v ← a
  if truthy v then pure v else b

/-- Reading an identifier that is free in a function body: the scope is
given as the list of declared names visible there (parameters, hoisted vars,
and the bindings of the enclosing wrapper function). A name found in scope
is modelled where it is bound, so this helper answers undefined for it; a
name not in scope throws a ReferenceError, as reading an undeclared
identifier does. -/
def readFreeIdent (scope : List String) (id : String) : Except JSErr JSValue :=
  if scope.contains id then Except.ok JSValue.undef
  else Except.error (JSErr.refError (id ++ " is not defined"))

/-- The names in scope inside buildEventObject: its parameters, its hoisted
var declarations, and the bindings of the enclosing wrapper function. Note
that neither message nor result is among them. -/
def buildEventObjectScope : List String :=
  ["resultStatus", "customMessage", "typeContext",
   "e", "eventReturnCode", "eventMessage", "eventType", "eventContext",
   "window", "$", "undefined", "Numeric"]

/-- The names in scope inside validationResult: its parameters, its hoisted
var declaration, and the bindings of the enclosing wrapper function. -/
def validationResultScope : List String :=
  ["resultStatus", "customMessage", "typeContext", "e",
   "window", "$", "undefined", "Numeric"]

/-- buildEventObject (lines 362 to 413). The second statement evaluates the
identifier message, which is not declared in any enclosing scope (the
parameter is named customMessage), so every call throws a ReferenceError
before the event object is assembled. The subsequent statements are
transcribed for completeness; they too would throw, reading eventType from
this.resultInfoLookup, a member the prototype does not define (its lookup
table is named eventLookupTable). -/
def buildEventObject (st : Inst) (resultStatus customMessage typeContext : JSValue) :
    Except JSErr JSEventObj := do
  let eventReturnCode := toNumber resultStatus
  let eventMessage ← jsOr (readFreeIdent buildEventObjectScope "message")
    (jsOr (do
        let arr ← propOf (protoPropRead "resultEventInfoLookup") "message"
        pure (indexJS arr eventReturnCode))
      (pure (JSValue.str "Unknown event type.")))
  let eventType ← jsOr (do
      let arr ← propOf (protoPropRead "resultInfoLookup") "eventType"
      pure (indexJS arr eventReturnCode))
    (pure (JSValue.str "scr:numeric.entry_validity_unknown"))
  let eventContext := if truthy typeContext then typeContext else JSValue.str "standard"
  pure { typeName := jsToString eventType ++ "." ++ jsToString eventContext
         code := eventReturnCode
         message := eventMessage
         typeBase := eventType
         typeCtx := eventContext
         elementValue := st.elementLastValue }

/-- $.proxy binds a function to a receiver and returns the new bound
function; it does not invoke it. -/
def proxyBind (f : JSValue) : JSValue := JSValue.func "bound"

/-- validationResult (lines 331 to 351). The first statement calls
this.buildEvent, a member the prototype does not define (the builder is
named buildEventObject), so the call throws a TypeError. Were it reached,
the return statement would read the undeclared identifier result (the
parameter is named resultStatus) and, in either branch, return the bound
function produced by $.proxy without invoking the configured callback. -/
def validationResult (st : Inst) (resultStatus customMessage typeContext : JSValue) :
    Except JSErr (JSValue × Inst) := do
  let e ← (if protoMethods.contains "buildEvent" then
      buildEventObject st resultStatus customMessage typeContext
    else
      Except.error (JSErr.typeError "this.buildEvent is not a function"))
  let st2 := { st with triggered := st.triggered ++ [e] }
  let r ← readFreeIdent validationResultScope "result"
  if strictEq r (JSValue.bool true) then
    pure (proxyBind (readProp st2.config CfgField.callbackValidEntry), st2)
  else
    pure (proxyBind (readProp st2.config CfgField.callbackInvalidEntry), st2)

/-- hasElementValueChanged (lines 190 to 208): on the first call the current
element value is recorded and true is returned; afterwards, an unchanged
value returns false and a changed value is recorded and returns true. -/
def hasElementValueChanged (st : Inst) : Bool × Inst :=
  match st.elementLastValue with
  | none => (true, { st with elementLastValue := some st.domValue })
  | some last =>
    if last = st.domValue then (false, st)
    else (true, { st with elementLastValue := some st.domValue })

/-- The value a method returns: the bound instance itself (return this) or
an ordinary value. -/
inductive JSRet where
  | self : JSRet
  | val : JSValue → JSRet

/-- validateLive (lines 254 to 274). The guard compares
this.hasElementValueChanged, the method itself rather than its result (the
call parentheses are missing in the source), against false; a function value
is never strictly equal to a boolean, so the guard never fires and the
handler always reaches validationResult. -/
def validateLive (st : Inst) : Except JSErr (JSRet × Inst) :=
  if strictEq (protoPropRead "hasElementValueChanged") (JSValue.bool false) then
    pure (JSRet.self, st)
  else do
    let r ← validationResult st (JSValue.bool false)
      (JSValue.str "Character % not allowed.") JSValue.undef
    pure (JSRet.val r.1, r.2)

/-- validateLazy (lines 281 to 301), with the same never-firing guard as
validateLive. -/
def validateLazy (st : Inst) : Except JSErr (JSRet × Inst) :=
  if strictEq (protoPropRead "hasElementValueChanged") (JSValue.bool false) then
    pure (JSRet.self, st)
  else do
    let r ← validationResult st (JSValue.bool true) JSValue.undef JSValue.undef
    pure (JSRet.val r.1, r.2)

/-- validate (lines 229 to 246): an instance never attached to an element
(this.element === undefined) returns itself at once; otherwise, after the
same never-firing guard, the source chains
this.validateLive().validateLazy() and returns this. The chained call
targets whatever validateLive returned, which is the value of
validationResult rather than the instance, so even a non-throwing
validationResult would leave validateLazy looked up on a non-instance
value. -/
def validate (st : Inst) : Except JSErr (JSRet × Inst) := do
  if st.element.isNone then pure (JSRet.self, st)
  else if strictEq (protoPropRead "hasElementValueChanged") (JSValue.bool false) then
    pure (JSRet.self, st)
  else do
    let r ← validateLive st
    let r2 ← (match r.1 with
      | JSRet.self => validateLazy r.2
      | JSRet.val _ => Except.error (JSErr.typeError "validateLazy is not a function"))
    pure (JSRet.self, r2.2)

/-! ## Concrete instances for the dispatcher claims -/

/-- An initialized instance bound to an element whose current value equals
the recorded last value (nothing changed since the last check). -/
def inst0 : Inst :=
  { element := some ()
    domValue := "12"
    elementLastValue := some "12"
    config := mergeConfiguration emptyObj emptyObj
    triggered := [] }

/-- A user options object that configures a valid-entry callback. -/
def objValidCb : Obj := fun f =>
  if f = CfgField.callbackValidEntry then some (JSValue.func "userValidCb") else none

/-- An initialized instance whose resolved configuration carries a
valid-entry callback. -/
def instValidCb : Inst :=
  { element := some ()
    domValue := "12"
    elementLastValue := some "12"
    config := mergeConfiguration objValidCb emptyObj
    triggered := [] }

/-- An instance that was never attached to an element. -/
def instUnattached : Inst :=
  { element := none
    domValue := ""
    elementLastValue := none
    config := emptyObj
    triggered := [] }

/-- A concrete instance for the change-detection witness: the recorded last
value "a" differs from the current element value "b". -/
def instW : Inst :=
  { element := some ()
    domValue := "b"
    elementLastValue := some "a"
    config := emptyObj
    triggered := [] }

/-! ## Claim theorems: dispatcher -/

/-- C1: the claim states that executing a validation-notification cycle
(validationResult together with the event-object construction it delegates
to) raises no exception for any input. The code contradicts this: every
call of validationResult throws a TypeError, because it invokes
this.buildEvent while the prototype only defines buildEventObject; and
every call of buildEventObject itself throws a ReferenceError, because it
reads the undeclared identifier message (its parameter is named
customMessage). This theorem evaluates both functions at a concrete
successful-cycle input and exhibits the exceptions. -/
theorem c1_validation_cycle_throws :
    validationResult inst0 (JSValue.bool true) JSValue.undef JSValue.undef
      = Except.error (JSErr.typeError "this.buildEvent is not a function")
  ∧ buildEventObject inst0 (JSValue.bool true) JSValue.undef JSValue.undef
      = Except.error (JSErr.refError "message is not defined") :=
  ⟨rfl, rfl⟩

/-- C2: the claim states that a configured callback for the cycle outcome is
invoked exactly once with the constructed event, its return value becoming
the result of the call. The code contradicts this: with a valid-entry
callback resolved into the configuration, the successful cycle
validationResult(true) throws before any callback can run (and its return
statement, were it reached, reads the undeclared identifier result and
returns the bound function made by $.proxy without invoking the callback). -/
theorem c2_callback_never_invoked :
    readProp instValidCb.config CfgField.callbackValidEntry = JSValue.func "userValidCb"
  ∧ validationResult instValidCb (JSValue.bool true) JSValue.undef JSValue.undef
      = Except.error (JSErr.typeError "this.buildEvent is not a function") :=
  ⟨rfl, rfl⟩

/-- C3: the claim states that when a qualifying event fires while the
element value equals the recorded last value, validateLive and validateLazy
perform no further action. The code contradicts this: their guard compares
the method hasElementValueChanged itself (the call parentheses are missing)
against false, which never holds, so on an instance whose value is
unchanged both handlers still enter the validation path and throw from
validationResult instead of returning quietly. -/
theorem c3_unchanged_value_not_short_circuited :
    inst0.elementLastValue = some inst0.domValue
  ∧ validateLive inst0
      = Except.error (JSErr.typeError "this.buildEvent is not a function")
  ∧ validateLazy inst0
      = Except.error (JSErr.typeError "this.buildEvent is not a function") :=
  ⟨rfl, rfl, rfl⟩

/-- C4: the claim states that validate() performs the live-path and
lazy-path checks and returns the bound instance, and is a silent no-op on a
never-attached instance. The no-op half holds, but on an attached instance
the code throws: validate reaches validateLive, which reaches
validationResult, which throws the buildEvent TypeError, so validate never
returns the instance. -/
theorem c4_validate_unattached_ok_attached_throws :
    validate instUnattached = Except.ok (JSRet.self, instUnattached)
  ∧ validate inst0
      = Except.error (JSErr.typeError "this.buildEvent is not a function") :=
  ⟨rfl, rfl⟩

/-- C9: change detection. With a recorded last value, a first call behaves
as follows: an unchanged element value returns false and leaves the state
alone, a changed one returns true and records the new current value; and a
second call in succession, with no intervening change of the element value,
returns false. -/
theorem c9_change_detection (st : Inst) (l : String)
    (hl : st.elementLastValue = some l) :
    hasElementValueChanged st
      = (if l = st.domValue then (false, st)
         else (true, { st with elementLastValue := some st.domValue }))
  ∧ (hasElementValueChanged (hasElementValueChanged st).2).1 = false := by
  constructor
  · simp only [hasElementValueChanged, hl]
  · by_cases h : l = st.domValue
    · simp [hasElementValueChanged, hl, h]
    · simp [hasElementValueChanged, hl, h]

/-- C9 witness: the change-detection contract evaluated on a concrete
instance whose recorded value "a" differs from the current value "b". -/
theorem c9_change_detection_witness :
    hasElementValueChanged instW
      = (if "a" = instW.domValue then (false, instW)
         else (true, { instW with elementLastValue := some instW.domValue }))
  ∧ (hasElementValueChanged (hasElementValueChanged instW).2).1 = false :=
  c9_change_detection instW "a" rfl

/-- C10: resolving the configuration of one instance leaves the defaults
object untouched: the raw merge of mergeConfiguration targets a fresh empty
object literal and every normalization write lands in this.config, so the
defaults field of the instance state passes through unchanged. -/
theorem c10_defaults_not_mutated (st : InstCfgState) (options metadata : Obj) :
    (runMergeConfiguration st options metadata).defaults = st.defaults := rfl

/-! ## Claim theorems: configuration resolver -/

/-- The value a source object contributes to a jQuery extend step: the
property must be present with a value other than undefined to survive. -/
def definedVal (o : Obj) (f : CfgField) : Option JSValue :=
  match o f with
  | some v => if v = JSValue.undef then none else some v
  | none => none

/-- Statement of the amended C5 precedence contract, written from the spec
wording with the undefined-skipping proviso: the merged value is the
contribution of metadata when defined, else of the options, else the
default. -/
def precedenceSpec (u m : Obj) (f : CfgField) : JSValue :=
  match definedVal m f with
  | some v => v
  | none =>
    match definedVal u f with
    | some v => v
    | none => readProp defaultsObj f

lemma readProp_extendObj (t s : Obj) (f : CfgField) :
    readProp (extendObj t s) f
      = (match definedVal s f with
         | some v => v
         | none => readProp t f) := by
  simp only [readProp, extendObj, definedVal]
  cases h : s f with
  | none => rfl
  | some v =>
    by_cases hv : v = JSValue.undef
    · simp [hv]
    · simp [hv]

lemma readProp_extend_defaults (f : CfgField) :
    readProp (extendObj emptyObj defaultsObj) f = readProp defaultsObj f := by
  cases f <;> rfl

lemma mergeRaw_lookup (u m : Obj) (f : CfgField) :
    readProp (mergeRaw u m) f = precedenceSpec u m f := by
  show readProp (extendObj (extendObj (extendObj emptyObj defaultsObj) u) m) f
    = precedenceSpec u m f
  unfold precedenceSpec
  rw [readProp_extendObj]
  cases definedVal m f with
  | some v => rfl
  | none =>
    rw [readProp_extendObj]
    cases definedVal u f with
    | some v => rfl
    | none => exact readProp_extend_defaults f

/-- The metadata object of the C5 counterexample: the negative property is
present but carries the value undefined. -/
def mC5 : Obj := fun f =>
  if f = CfgField.negative then some JSValue.undef else none

/-- The caller options object of the C5 counterexample. -/
def uC5 : Obj := fun f =>
  if f = CfgField.negative then some (JSValue.bool false) else none

/-- C5 counterexample: the claim says the merged value is the metadata value
whenever the field is present in the metadata object. Here negative is
present in the metadata with the value undefined, yet the merged value is
the caller-supplied false, because jQuery extend skips properties whose
copied value is undefined. -/
theorem c5_counterexample :
    mC5 CfgField.negative = some JSValue.undef
  ∧ readProp (mergeRaw uC5 mC5) CfgField.negative = JSValue.bool false :=
  ⟨rfl, rfl⟩

/-- C5 amended: for every field, the merged value before per-field
normalization is the metadata value when the field is present there with a
value other than undefined, otherwise the caller value when present with a
value other than undefined, otherwise the default value. -/
theorem c5_amended_precedence (u m : Obj) (f : CfgField) :
    readProp (mergeRaw u m) f = precedenceSpec u m f :=
  mergeRaw_lookup u m f

/-- The typing the C6 claim asserts for the resolved decimalPlaces field: an
integer or the unlimited marker (the undefined default). -/
def isIntegerOrUnlimited : JSValue → Bool
  | JSValue.undef => true
  | JSValue.num (JNum.rat q) => q.den == 1
  | _ => false

/-- C6 counterexample: resolving a configuration in which decimalPlaces was
never supplied leaves the field equal to the undefined default, whose unary
plus coercion is NaN, so the resolved field holds NaN, which is neither an
integer nor the unlimited marker. -/
theorem c6_counterexample :
    readProp (mergeConfiguration emptyObj emptyObj) CfgField.decimalPlaces
      = JSValue.num JNum.nan
  ∧ isIntegerOrUnlimited
      (readProp (mergeConfiguration emptyObj emptyObj) CfgField.decimalPlaces) = false :=
  ⟨rfl, rfl⟩

/-- typeof v === "string" with length 1: the resolved type the spec asserts
for the decimal field. -/
def isSingleCharString : JSValue → Bool
  | JSValue.str s => s.length == 1
  | _ => false

/-- Callable or absent: the resolved type the spec asserts for the two
callback fields. -/
def isCallableOrAbsent : JSValue → Bool
  | JSValue.func _ => true
  | JSValue.undef => true
  | _ => false

/-- The amended typing for decimalPlaces: an integer, the unlimited marker,
or NaN. -/
def isIntUnlimitedOrNaN : JSValue → Bool
  | JSValue.undef => true
  | JSValue.num JNum.nan => true
  | JSValue.num (JNum.rat q) => q.den == 1
  | _ => false

/-- The amended C6 invariant on a resolved configuration object. -/
def ResolvedWellTyped (c : Obj) : Prop :=
  isBoolVal (readProp c CfgField.negative) = true
  ∧ isSingleCharString (readProp c CfgField.decimal) = true
  ∧ isIntUnlimitedOrNaN (readProp c CfgField.decimalPlaces) = true
  ∧ isBoolVal (readProp c CfgField.delegateRemoval) = true
  ∧ isBoolVal (readProp c CfgField.delegateRealtime) = true
  ∧ isCallableOrAbsent (readProp c CfgField.callbackInvalidEntry) = true
  ∧ isCallableOrAbsent (readProp c CfgField.callbackValidEntry) = true

lemma resolveNegative_isBool (v : JSValue) :
    isBoolVal (resolveNegative defaultsObj v) = true := by
  cases v <;> rfl

lemma resolveDecimal_singleChar (v : JSValue) :
    isSingleCharString (resolveDecimal defaultsObj v) = true := by
  cases v with
  | str s =>
    by_cases h : s.length = 1
    · simp [resolveDecimal, strictEq, isStringOfLengthNe1, isStrVal,
        isSingleCharString, h]
    · simp only [resolveDecimal, strictEq, isStringOfLengthNe1, isStrVal,
        isSingleCharString, readProp, defaultsObj]
      simp [h]
      decide
  | bool b => cases b <;> rfl
  | undef => rfl
  | num n => rfl
  | func t => rfl

lemma parseIntFrom_integer (cs : List Char) (sign : ℤ) :
    parseIntFrom cs sign = JNum.nan
  ∨ ∃ z : ℤ, parseIntFrom cs sign = JNum.rat (z : ℚ) := by
  unfold parseIntFrom
  by_cases h : (cs.takeWhile Char.isDigit).isEmpty = true
  · exact Or.inl (by simp [h])
  · exact Or.inr ⟨sign * (digitsVal (cs.takeWhile Char.isDigit) : ℤ), by simp [h]⟩

lemma parseIntStr_integer (s : String) :
    parseIntStr s = JNum.nan ∨ ∃ z : ℤ, parseIntStr s = JNum.rat (z : ℚ) := by
  unfold parseIntStr
  split_ifs <;> exact parseIntFrom_integer _ _

lemma parseIntJS_integer (v : JSValue) :
    parseIntJS v = JNum.nan ∨ ∃ z : ℤ, parseIntJS v = JNum.rat (z : ℚ) := by
  cases v with
  | str s => exact parseIntStr_integer s
  | num n =>
    cases n with
    | nan => exact Or.inl rfl
    | rat q => exact Or.inr ⟨jsTrunc q, rfl⟩
  | undef => exact Or.inl rfl
  | bool b => exact Or.inl rfl
  | func t => exact Or.inl rfl

lemma jnumStrictEq_true {a b : JNum} (h : jnumStrictEq a b = true) :
    ∃ q : ℚ, a = JNum.rat q ∧ b = JNum.rat q := by
  cases a with
  | nan => simp [jnumStrictEq] at h
  | rat x =>
    cases b with
    | nan => simp [jnumStrictEq] at h
    | rat y =>
      have hxy : x = y := by simpa [jnumStrictEq] using h
      exact ⟨x, rfl, by rw [hxy]⟩

lemma strictEq_undef_right {v : JSValue} (h : strictEq v JSValue.undef = true) :
    v = JSValue.undef := by
  cases v <;> first | rfl | simp [strictEq] at h

lemma resolveDecimalPlaces_welltyped (v : JSValue) :
    isIntUnlimitedOrNaN (resolveDecimalPlaces defaultsObj v) = true := by
  unfold resolveDecimalPlaces
  cases hA : strictEq v (readProp defaultsObj CfgField.decimalPlaces) with
  | true =>
    have hv : v = JSValue.undef := strictEq_undef_right hA
    subst hv
    rfl
  | false =>
    cases hB : jnumStrictEq (toNumber v) (parseIntJS v) with
    | true =>
      obtain ⟨q, hq1, hq2⟩ := jnumStrictEq_true hB
      rcases parseIntJS_integer v with hz | ⟨z, hz⟩
      · rw [hz] at hq2; exact absurd hq2 (by simp)
      · rw [hz] at hq2
        have hqz : q = (z : ℚ) := by simpa using hq2.symm
        simp [hA, hB, isIntUnlimitedOrNaN, hq1, hqz, Rat.den_intCast]
    | false =>
      simp [hA, hB]
      rfl

lemma resolveDelegateRemoval_isBool (v : JSValue) :
    isBoolVal (resolveDelegate defaultsObj CfgField.delegateRemoval v) = true := by
  cases v <;> rfl

lemma resolveDelegateRealtime_isBool (v : JSValue) :
    isBoolVal (resolveDelegate defaultsObj CfgField.delegateRealtime v) = true := by
  cases v <;> rfl

lemma resolveCallback_callable (v : JSValue) :
    isCallableOrAbsent (resolveCallback v) = true := by
  cases v <;> rfl

/-- C6 amended: for every input configuration, every resolved field holds a
value of its declared type, except that decimalPlaces may also hold NaN,
which arises when the merged field equals the undefined default (its unary
plus coercion is NaN rather than the unlimited marker). -/
theorem c6_amended_invariant (options metadata : Obj) :
    ResolvedWellTyped (mergeConfiguration options metadata) := by
  refine ⟨?_, ?_, ?_, ?_, ?_, ?_, ?_⟩
  · exact resolveNegative_isBool _
  · exact resolveDecimal_singleChar _
  · exact resolveDecimalPlaces_welltyped _
  · exact resolveDelegateRemoval_isBool _
  · exact resolveDelegateRealtime_isBool _
  · exact resolveCallback_callable _
  · exact resolveCallback_callable _

/-- An object literal carrying a single property. -/
def objWithField (f0 : CfgField) (v : JSValue) : Obj :=
  fun f => if f = f0 then some v else none

/-- Statement of the C7 resolution contract, written from the spec wording:
a single-character string is kept, everything else resolves to the default
period. -/
def decimalResolutionSpec (v : JSValue) : JSValue :=
  match v with
  | JSValue.str s => if s.length = 1 then JSValue.str s else JSValue.str "."
  | _ => JSValue.str "."

/-- C7: for every supplied decimal option, resolution yields the period for
boolean true, keeps any single-character string as-is, and resets false,
any string of length other than 1, and any other invalid value to the
default period. -/
theorem c7_decimal_resolution (v : JSValue) :
    readProp (mergeConfiguration (objWithField CfgField.decimal v) emptyObj)
        CfgField.decimal
      = decimalResolutionSpec v := by
  show resolveDecimal defaultsObj
      (readProp (mergeRaw (objWithField CfgField.decimal v) emptyObj) CfgField.decimal)
    = decimalResolutionSpec v
  rw [mergeRaw_lookup]
  by_cases hv : v = JSValue.undef
  · subst hv; rfl
  · have hp : precedenceSpec (objWithField CfgField.decimal v) emptyObj CfgField.decimal
        = v := by
      simp [precedenceSpec, definedVal, objWithField, emptyObj, hv]
    rw [hp]
    cases v with
    | str s =>
      by_cases h1 : s.length = 1
      <;> simp [resolveDecimal, decimalResolutionSpec, strictEq,
            isStringOfLengthNe1, isStrVal, readProp, defaultsObj, h1]
    | undef => exact absurd rfl hv
    | bool b => cases b <;> rfl
    | num n => rfl
    | func t => rfl

/-- C8: a decimalPlaces option that round-trips through integer coercion,
such as the string "3", resolves to that integer; one that does not, such
as the string "abc", resolves to the unlimited default. -/
theorem c8_decimalPlaces_roundtrip :
    readProp
        (mergeConfiguration (objWithField CfgField.decimalPlaces (JSValue.str "3")) emptyObj)
        CfgField.decimalPlaces
      = JSValue.num (JNum.rat 3)
  ∧ readProp
        (mergeConfiguration (objWithField CfgField.decimalPlaces (JSValue.str "abc")) emptyObj)
        CfgField.decimalPlaces
      = JSValue.undef := by
  constructor <;> decide

end NumericPlugin
